import Mathlib

/-!
Verification of the Bayesian decision-support core of the Blue Schools
Water Quality Monitor.

The network structure and all CPD tables are transcribed from
`BoreholeWaterQualityModel._build_network` (src/backend/bayesian_model.py),
and the derived operations (`predict_contamination_risk`,
`predict_pump_status`, `get_most_likely_scenario`, `sensitivity_analysis`,
`_categorize_risk`) from the same class.  Probabilities are modelled as
exact rationals.
-/

set_option maxRecDepth 10000

/-- The seven variables of the Bayesian network declared in `_build_network`. -/
inductive Var : Type
  | Rainfall | Turbidity | Surface_Runoff | Latrine_Dist
  | Pump_Age | Pump_Failure | Contamination
  deriving DecidableEq, Repr

open Var

/-- Cardinality (number of discrete states) of each variable, matching the
`variable_card` arguments of the `TabularCPD`s in `_build_network` and the
`states` lists of `get_variable_info`. -/
def card : Var → Nat
  | Rainfall => 3
  | Turbidity => 3
  | Surface_Runoff => 2
  | Latrine_Dist => 2
  | Pump_Age => 3
  | Pump_Failure => 2
  | Contamination => 2

/-- The six directed edges declared in `_build_network`. -/
def edges : List (Var × Var) :=
  [(Rainfall, Turbidity),
   (Rainfall, Surface_Runoff),
   (Turbidity, Contamination),
   (Surface_Runoff, Contamination),
   (Latrine_Dist, Contamination),
   (Pump_Age, Pump_Failure)]

/-- All seven variables, in declaration order. -/
def allVarsList : List Var :=
  [Rainfall, Turbidity, Surface_Runoff, Latrine_Dist, Pump_Age, Pump_Failure, Contamination]

/-- A full joint assignment of states to all seven variables. -/
structure Assignment where
  ra : Fin 3
  tu : Fin 3
  sr : Fin 2
  ld : Fin 2
  pa : Fin 3
  pf : Fin 2
  co : Fin 2
  deriving DecidableEq

/-- Prior CPD of Rainfall: `[[0.5], [0.3], [0.2]]`. -/
def cpd_rainfall : Fin 3 → ℚ
  | 0 => 1/2
  | 1 => 3/10
  | 2 => 1/5

/-- Prior CPD of Latrine_Dist: `[[0.7], [0.3]]`. -/
def cpd_latrine : Fin 2 → ℚ
  | 0 => 7/10
  | 1 => 3/10

/-- Prior CPD of Pump_Age: `[[0.3], [0.5], [0.2]]`. -/
def cpd_pump_age : Fin 3 → ℚ
  | 0 => 3/10
  | 1 => 1/2
  | 2 => 1/5

/-- CPD of Turbidity given Rainfall; first index is the child (row) state,
second is the Rainfall (column) state, as in the `values` matrix. -/
def cpd_turbidity : Fin 3 → Fin 3 → ℚ
  | 0, 0 => 90/100 | 0, 1 => 50/100 | 0, 2 => 10/100
  | 1, 0 => 8/100  | 1, 1 => 35/100 | 1, 2 => 30/100
  | 2, 0 => 2/100  | 2, 1 => 15/100 | 2, 2 => 60/100

/-- CPD of Surface_Runoff given Rainfall. -/
def cpd_runoff : Fin 2 → Fin 3 → ℚ
  | 0, 0 => 95/100 | 0, 1 => 40/100 | 0, 2 => 10/100
  | 1, 0 => 5/100  | 1, 1 => 60/100 | 1, 2 => 90/100

/-- CPD of Pump_Failure given Pump_Age. -/
def cpd_pump_failure : Fin 2 → Fin 3 → ℚ
  | 0, 0 => 98/100 | 0, 1 => 90/100 | 0, 2 => 70/100
  | 1, 0 => 2/100  | 1, 1 => 10/100 | 1, 2 => 30/100

/-- CPD of Contamination given (Turbidity, Surface_Runoff, Latrine_Dist);
first index is the child state, the remaining three follow the declared
`evidence` order, with the last parent varying fastest across the columns
of the `values` matrix. -/
def cpd_contamination : Fin 2 → Fin 3 → Fin 2 → Fin 2 → ℚ
  | 0, 0, 0, 0 => 99/100 | 0, 0, 0, 1 => 95/100 | 0, 0, 1, 0 => 85/100 | 0, 0, 1, 1 => 70/100
  | 0, 1, 0, 0 => 80/100 | 0, 1, 0, 1 => 60/100 | 0, 1, 1, 0 => 50/100 | 0, 1, 1, 1 => 30/100
  | 0, 2, 0, 0 => 40/100 | 0, 2, 0, 1 => 20/100 | 0, 2, 1, 0 => 15/100 | 0, 2, 1, 1 => 5/100
  | 1, 0, 0, 0 => 1/100  | 1, 0, 0, 1 => 5/100  | 1, 0, 1, 0 => 15/100 | 1, 0, 1, 1 => 30/100
  | 1, 1, 0, 0 => 20/100 | 1, 1, 0, 1 => 40/100 | 1, 1, 1, 0 => 50/100 | 1, 1, 1, 1 => 70/100
  | 1, 2, 0, 0 => 60/100 | 1, 2, 0, 1 => 80/100 | 1, 2, 1, 0 => 85/100 | 1, 2, 1, 1 => 95/100

/-- The factor contributed by the pump component (Pump_Age, Pump_Failure). -/
def pumpW (pa : Fin 3) (pf : Fin 2) : ℚ :=
  cpd_pump_age pa * cpd_pump_failure pf pa

/-- The factor contributed by the water component
(Rainfall, Turbidity, Surface_Runoff, Latrine_Dist, Contamination). -/
def waterW (ra tu : Fin 3) (sr ld co : Fin 2) : ℚ :=
  cpd_rainfall ra * cpd_latrine ld * cpd_turbidity tu ra *
  cpd_runoff sr ra * cpd_contamination co tu sr ld

/-- Joint probability of a full assignment: the product of all seven CPD
entries of the network. -/
def jointP (a : Assignment) : ℚ :=
  pumpW a.pa a.pf * waterW a.ra a.tu a.sr a.ld a.co

/-- All states of the pump component. -/
def pumpPairs : List (Fin 3 × Fin 2) :=
  (List.finRange 3).flatMap fun pa =>
  (List.finRange 2).map fun pf => (pa, pf)

/-- All states of the water component. -/
def waterTuples : List (Fin 3 × Fin 3 × Fin 2 × Fin 2 × Fin 2) :=
  (List.finRange 3).flatMap fun ra =>
  (List.finRange 3).flatMap fun tu =>
  (List.finRange 2).flatMap fun sr =>
  (List.finRange 2).flatMap fun ld =>
  (List.finRange 2).map fun co => (ra, tu, sr, ld, co)

/-- Build an assignment from a water-component and a pump-component state. -/
def mkAsn (wt : Fin 3 × Fin 3 × Fin 2 × Fin 2 × Fin 2) (pp : Fin 3 × Fin 2) : Assignment :=
  ⟨wt.1, wt.2.1, wt.2.2.1, wt.2.2.2.1, pp.1, pp.2, wt.2.2.2.2⟩

/-- All 432 joint assignments of the network. -/
def allAsn : List Assignment :=
  pumpPairs.flatMap fun pp => waterTuples.map fun wt => mkAsn wt pp

/-- Sum of a rational-valued function over all joint assignments. -/
def sumAsn (F : Assignment → ℚ) : ℚ := (allAsn.map F).sum

/-- Evidence: a partial map from variables to observed state indices,
mirroring the `Dict[str, int]` evidence dictionaries of the Python code. -/
def Evidence : Type := Var → Option Nat

/-- State of variable `v` in assignment `a`, as a natural number. -/
def att : Var → Assignment → Nat
  | Rainfall, a => a.ra.val
  | Turbidity, a => a.tu.val
  | Surface_Runoff, a => a.sr.val
  | Latrine_Dist, a => a.ld.val
  | Pump_Age, a => a.pa.val
  | Pump_Failure, a => a.pf.val
  | Contamination, a => a.co.val

/-- Does an observed value (if any) match the actual state? -/
def mtch : Option Nat → Nat → Bool
  | some s, n => n == s
  | none, _ => true

/-- An assignment is consistent with evidence when it matches every
observed value. -/
def consistent (e : Evidence) (a : Assignment) : Bool :=
  mtch (e Rainfall) a.ra.val && mtch (e Turbidity) a.tu.val &&
  mtch (e Surface_Runoff) a.sr.val && mtch (e Latrine_Dist) a.ld.val &&
  mtch (e Pump_Age) a.pa.val && mtch (e Pump_Failure) a.pf.val &&
  mtch (e Contamination) a.co.val

/-- Every observed state index lies inside `[0, cardinality)`. -/
def validEv (e : Evidence) : Bool :=
  allVarsList.all fun v => (e v).all fun s => decide (s < card v)

/-- Modelled from the spec: the exact inference engine
(`VariableElimination.query` of pgmpy) is not part of this repository's
sources; per §4.3 of the spec, sum-product variable elimination answers a
marginal query exactly, returning the normalized marginal of the target
under the evidence.  `numer t s e` is the unnormalized mass of the part of
the joint distribution that is consistent with `e` and has `t` in state
`s` (the value of the final target-scoped factor before normalization). -/
def numer (t : Var) (s : Nat) (e : Evidence) : ℚ :=
  sumAsn fun a => if consistent e a && (att t a == s) then jointP a else 0

/-- Modelled from the spec: total unnormalized mass consistent with the
evidence (the normalization constant of §4.1 `normalize`). -/
def evTotal (e : Evidence) : ℚ :=
  sumAsn fun a => if consistent e a then jointP a else 0

/-- Modelled from the spec: the posterior probability of variable `t`
being in state `s` given evidence `e`, i.e. the entry of the normalized
`QueryResult` of `query({t}, e)`. -/
def posterior (t : Var) (e : Evidence) (s : Nat) : ℚ :=
  numer t s e / evTotal e

/-- The `_categorize_risk` helper: convert a contamination probability to a
human-readable risk level. -/
def _categorize_risk (prob : ℚ) : String :=
  if prob < 2/10 then "LOW"
  else if prob < 5/10 then "MODERATE"
  else if prob < 8/10 then "HIGH"
  else "CRITICAL"

/-- Result record of `predict_contamination_risk`. -/
structure RiskResult where
  safe_probability : ℚ
  contamination_probability : ℚ
  risk_level : String
  evidence_used : Evidence

/-- The `predict_contamination_risk` operation: query the Contamination marginal under
the given evidence and package both state probabilities, the risk level
derived from the contaminated-state probability, and the evidence used. -/
def predict_contamination_risk (e : Evidence) : RiskResult :=
  { safe_probability := posterior Contamination e 0
    contamination_probability := posterior Contamination e 1
    risk_level := _categorize_risk (posterior Contamination e 1)
    evidence_used := e }

/-- Result record of `predict_pump_status`. -/
structure PumpResult where
  working_probability : ℚ
  failure_probability : ℚ
  maintenance_needed : Bool

/-- The `predict_pump_status` operation: query the Pump_Failure marginal given
`{'Pump_Age': pump_age}`; maintenance is flagged when the failure
probability exceeds 0.15. -/
def predict_pump_status (pump_age : Nat) : PumpResult :=
  let e : Evidence := fun v => if v = Pump_Age then some pump_age else none
  { working_probability := posterior Pump_Failure e 0
    failure_probability := posterior Pump_Failure e 1
    maintenance_needed := 3/20 < posterior Pump_Failure e 1 }

/-- First index of the maximum in a list, scanning left to right and
keeping the earlier index on ties — the behavior of `np.argmax`. -/
def argmaxGo : Nat → ℚ → Nat → List ℚ → Nat
  | bi, _, _, [] => bi
  | bi, bv, i, x :: xs => if bv < x then argmaxGo i x (i+1) xs else argmaxGo bi bv (i+1) xs

/-- Behavior of `np.argmax` over a list of probabilities (0 on the empty list). -/
def argmaxIdx : List ℚ → Nat
  | [] => 0
  | x :: xs => argmaxGo 0 x 1 xs

/-- The most-likely-scenario estimator: for every variable not in the evidence,
independently query its marginal and take the most probable state;
observed variables are not reported. -/
def get_most_likely_scenario (e : Evidence) : Var → Option Nat :=
  fun v =>
    match e v with
    | some _ => none
    | none => some (argmaxIdx ((List.range (card v)).map (posterior v e)))

/-- Update evidence with `v ↦ s` (the `temp_evidence[var] = state` step). -/
def updateEv (e : Evidence) (v : Var) (s : Nat) : Evidence :=
  fun w => if w = v then some s else e w

/-- Python's `max` on a nonempty list, and `0.0` on the empty list
(`max(impacts) if impacts else 0.0`). -/
def scoreOf : List ℚ → ℚ
  | [] => 0
  | x :: xs => xs.foldl max x

/-- The `sensitivity_analysis` operation: for each variable present in the evidence,
the score is the maximum absolute change of the target's state-1
probability when that variable is flipped to each alternative state;
variables not present in the evidence receive no score. -/
def sensitivity_analysis (target : Var) (e : Evidence) : Var → Option ℚ :=
  fun v =>
    match e v with
    | none => none
    | some original_state =>
      let base_prob := posterior target e 1
      let impacts :=
        ((List.range (card v)).filter fun s => decide (s ≠ original_state)).map fun s =>
          |posterior target (updateEv e v s) 1 - base_prob|
      some (scoreOf impacts)

/-- Query-time errors, per the spec's error taxonomy (§4.3/§7). -/
inductive QueryError : Type
  | stateRange (v : Var) (s : Nat)
  deriving DecidableEq, Repr

/-- Modelled from the spec: the inference engine (pgmpy, not under src/)
rejects evidence whose state index is outside `[0, cardinality)` with a
state-range error and produces no partial result (§4.3: "StateRangeError
if an evidence value is outside [0, cardinality)"). -/
def queryE (t : Var) (e : Evidence) : Except QueryError (List ℚ) :=
  match allVarsList.find? (fun v => !((e v).all fun s => decide (s < card v))) with
  | some v => .error (.stateRange v ((e v).getD 0))
  | none => .ok ((List.range (card t)).map (posterior t e))

/-- Variant of `predict_contamination_risk` with the query-time validation of the
underlying engine made explicit: on invalid evidence the state-range
error propagates and no result record is produced. -/
def predict_contamination_risk_checked (e : Evidence) : Except QueryError RiskResult :=
  (queryE Contamination e).map fun probs =>
    { safe_probability := probs.getD 0 0
      contamination_probability := probs.getD 1 0
      risk_level := _categorize_risk (probs.getD 1 0)
      evidence_used := e }

/-- Is there a path of length `≤ n+1` edges from `a` to `b`? -/
def hasPath (es : List (Var × Var)) : Nat → Var → Var → Bool
  | 0, a, b => es.any fun p => p.1 == a && p.2 == b
  | n+1, a, b =>
    (es.any fun p => p.1 == a && p.2 == b) ||
    (allVarsList.any fun c => (es.any fun p => p.1 == a && p.2 == c) && hasPath es n c b)

/-- A directed graph on the seven variables is acyclic when no variable
reaches itself by a nonempty path. -/
def isAcyclicB (es : List (Var × Var)) : Bool :=
  allVarsList.all fun v => !(hasPath es 6 v v)

/-- Column sum of a prior CPD (its single column). -/
def colSumPrior (n : Nat) (p : Fin n → ℚ) : ℚ := ((List.finRange n).map p).sum

/-- The `check_model` validation: the declared edges form a DAG and every
CPD column sums exactly to one. -/
def check_model : Bool :=
  isAcyclicB edges &&
  (colSumPrior 3 cpd_rainfall == 1) &&
  (colSumPrior 2 cpd_latrine == 1) &&
  (colSumPrior 3 cpd_pump_age == 1) &&
  ((List.finRange 3).all fun ra => colSumPrior 3 (fun t => cpd_turbidity t ra) == 1) &&
  ((List.finRange 3).all fun ra => colSumPrior 2 (fun s => cpd_runoff s ra) == 1) &&
  ((List.finRange 3).all fun pa => colSumPrior 2 (fun f => cpd_pump_failure f pa) == 1) &&
  ((List.finRange 3).all fun tu => (List.finRange 2).all fun sr => (List.finRange 2).all fun ld =>
    colSumPrior 2 (fun c => cpd_contamination c tu sr ld) == 1)

/-- Evidence observing nothing (an empty observation dictionary). -/
def emptyEv : Evidence := fun _ => none

/-- Clamp an optional observed value into `Fin n` (defaulting to state 0);
used to build an explicit assignment extending valid evidence. -/
def fin3 (o : Option Nat) : Fin 3 := ⟨o.getD 0 % 3, Nat.mod_lt _ (by omega)⟩

/-- Clamp an optional observed value into `Fin 2` (defaulting to state 0). -/
def fin2 (o : Option Nat) : Fin 2 := ⟨o.getD 0 % 2, Nat.mod_lt _ (by omega)⟩

/-- An assignment that extends the evidence (defaulting unobserved
variables to state 0). -/
def defaultAsn (e : Evidence) : Assignment :=
  ⟨fin3 (e Rainfall), fin3 (e Turbidity), fin2 (e Surface_Runoff),
   fin2 (e Latrine_Dist), fin3 (e Pump_Age), fin2 (e Pump_Failure),
   fin2 (e Contamination)⟩

/-- Water-component consistency: the evidence entries of the five
variables of the water component all match. -/
def consW (e : Evidence) (ra tu : Fin 3) (sr ld co : Fin 2) : Bool :=
  mtch (e Rainfall) ra.val && mtch (e Turbidity) tu.val &&
  mtch (e Surface_Runoff) sr.val && mtch (e Latrine_Dist) ld.val &&
  mtch (e Contamination) co.val

/-- Pump-component consistency. -/
def consP (e : Evidence) (pa : Fin 3) (pf : Fin 2) : Bool :=
  mtch (e Pump_Age) pa.val && mtch (e Pump_Failure) pf.val

/-- Sum of a function over the pump-component states. -/
def sumP (H : Fin 3 → Fin 2 → ℚ) : ℚ :=
  (pumpPairs.map fun pp => H pp.1 pp.2).sum

/-- Sum of a function over the water-component states. -/
def sumW (G : Fin 3 → Fin 3 → Fin 2 → Fin 2 → Fin 2 → ℚ) : ℚ :=
  (waterTuples.map fun wt => G wt.1 wt.2.1 wt.2.2.1 wt.2.2.2.1 wt.2.2.2.2).sum

/-- A concrete observation: heavy rain and slightly cloudy water
(test case 4 of the module's self-test). -/
def rainyEv : Evidence := fun v =>
  match v with
  | Rainfall => some 2
  | Turbidity => some 1
  | _ => none

/-- A concrete invalid observation: state 5 for the 2-state Latrine_Dist. -/
def badEv : Evidence := fun v =>
  match v with
  | Latrine_Dist => some 5
  | _ => none

/-- A concrete observation fixing only Pump_Age. -/
def pumpAgeEv : Evidence := fun v =>
  match v with
  | Pump_Age => some 0
  | _ => none

/-- A concrete observation fixing only Rainfall. -/
def rainOnlyEv : Evidence := fun v =>
  match v with
  | Rainfall => some 0
  | _ => none

section ListLemmas

variable {α : Type}

theorem lsum_map_add (f g : α → ℚ) (l : List α) :
    (l.map fun x => f x + g x).sum = (l.map f).sum + (l.map g).sum := by
  induction l with
  | nil => simp
  | cons x xs ih => simp only [List.map_cons, List.sum_cons, ih]; ring

theorem lsum_nonneg (f : α → ℚ) (l : List α) (h : ∀ x ∈ l, 0 ≤ f x) :
    0 ≤ (l.map f).sum := by
  induction l with
  | nil => simp
  | cons x xs ih =>
    simp only [List.map_cons, List.sum_cons]
    have h1 := h x (by simp)
    have h2 := ih fun y hy => h y (by simp [hy])
    linarith

theorem lsum_pos_of_mem (f : α → ℚ) (l : List α) (a : α)
    (h0 : ∀ x ∈ l, 0 ≤ f x) (ha : a ∈ l) (hpos : 0 < f a) :
    0 < (l.map f).sum := by
  induction l with
  | nil => simp at ha
  | cons x xs ih =>
    simp only [List.map_cons, List.sum_cons]
    rcases List.mem_cons.mp ha with rfl | hmem
    · have h2 := lsum_nonneg f xs fun y hy => h0 y (by simp [hy])
      linarith
    · have h1 := h0 x (by simp)
      have h2 := ih (fun y hy => h0 y (by simp [hy])) hmem
      linarith

theorem lsum_map_flatMap {β : Type} (l : List α) (f : α → List β) (g : β → ℚ) :
    ((l.flatMap f).map g).sum = (l.map fun x => ((f x).map g).sum).sum := by
  induction l with
  | nil => simp
  | cons x xs ih => simp [List.flatMap_cons, ih]

theorem lsum_map_mul_left (c : ℚ) (f : α → ℚ) (l : List α) :
    (l.map fun x => c * f x).sum = c * (l.map f).sum := by
  induction l with
  | nil => simp
  | cons x xs ih => simp only [List.map_cons, List.sum_cons, ih]; ring

theorem lsum_map_mul_right (c : ℚ) (f : α → ℚ) (l : List α) :
    (l.map fun x => f x * c).sum = (l.map f).sum * c := by
  induction l with
  | nil => simp
  | cons x xs ih => simp only [List.map_cons, List.sum_cons, ih]; ring

theorem le_foldl_max_init (xs : List ℚ) (x : ℚ) : x ≤ xs.foldl max x := by
  induction xs generalizing x with
  | nil => simp
  | cons y ys ih => exact le_trans (le_max_left x y) (ih (max x y))

theorem le_foldl_max_mem (xs : List ℚ) (x y : ℚ) (hy : y ∈ xs) :
    y ≤ xs.foldl max x := by
  induction xs generalizing x with
  | nil => simp at hy
  | cons z zs ih =>
    rcases List.mem_cons.mp hy with rfl | hmem
    · exact le_trans (le_max_right x y) (le_foldl_max_init zs (max x y))
    · exact ih (max x z) hmem

theorem foldl_max_cases (xs : List ℚ) (x : ℚ) :
    xs.foldl max x = x ∨ xs.foldl max x ∈ xs := by
  induction xs generalizing x with
  | nil => left; rfl
  | cons y ys ih =>
    rcases ih (max x y) with h | h
    · rcases max_choice x y with hm | hm
      · left; simp only [List.foldl_cons]; rw [h, hm]
      · right; simp only [List.foldl_cons]; rw [h, hm]; simp
    · right; simp only [List.foldl_cons]; exact List.mem_cons_of_mem _ h

end ListLemmas

theorem scoreOf_le (l : List ℚ) (x : ℚ) (hx : x ∈ l) : x ≤ scoreOf l := by
  cases l with
  | nil => simp at hx
  | cons y ys =>
    rcases List.mem_cons.mp hx with rfl | hmem
    · exact le_foldl_max_init ys x
    · exact le_foldl_max_mem ys y x hmem

theorem scoreOf_mem (l : List ℚ) (hne : l ≠ []) : scoreOf l ∈ l := by
  cases l with
  | nil => exact absurd rfl hne
  | cons y ys =>
    rcases foldl_max_cases ys y with h | h
    · rw [scoreOf, h]; simp
    · rw [scoreOf]; exact List.mem_cons_of_mem _ h

theorem scoreOf_nonneg (l : List ℚ) (h : ∀ x ∈ l, 0 ≤ x) : 0 ≤ scoreOf l := by
  cases l with
  | nil => exact le_refl 0
  | cons y ys => exact le_trans (h y (by simp)) (scoreOf_le _ y (by simp))

theorem scoreOf_eq_zero (l : List ℚ) (h : ∀ x ∈ l, x = 0) : scoreOf l = 0 := by
  cases l with
  | nil => rfl
  | cons y ys => exact h _ (scoreOf_mem (y :: ys) (by simp))

theorem cpd_rainfall_pos : ∀ r, 0 < cpd_rainfall r := by decide!

theorem cpd_latrine_pos : ∀ l, 0 < cpd_latrine l := by decide!

theorem cpd_pump_age_pos : ∀ p, 0 < cpd_pump_age p := by decide!

theorem cpd_turbidity_pos : ∀ t r, 0 < cpd_turbidity t r := by decide!

theorem cpd_runoff_pos : ∀ s r, 0 < cpd_runoff s r := by decide!

theorem cpd_pump_failure_pos : ∀ f p, 0 < cpd_pump_failure f p := by decide!

theorem cpd_contamination_pos : ∀ c t s l, 0 < cpd_contamination c t s l := by decide!

theorem pumpW_pos (pa : Fin 3) (pf : Fin 2) : 0 < pumpW pa pf :=
  mul_pos (cpd_pump_age_pos pa) (cpd_pump_failure_pos pf pa)

theorem waterW_pos (ra tu : Fin 3) (sr ld co : Fin 2) : 0 < waterW ra tu sr ld co :=
  mul_pos (mul_pos (mul_pos (mul_pos (cpd_rainfall_pos ra) (cpd_latrine_pos ld))
    (cpd_turbidity_pos tu ra)) (cpd_runoff_pos sr ra)) (cpd_contamination_pos co tu sr ld)

theorem jointP_pos (a : Assignment) : 0 < jointP a :=
  mul_pos (pumpW_pos a.pa a.pf) (waterW_pos a.ra a.tu a.sr a.ld a.co)

theorem mem_pumpPairs (pp : Fin 3 × Fin 2) : pp ∈ pumpPairs := by
  rcases pp with ⟨pa, pf⟩
  simp only [pumpPairs, List.mem_flatMap, List.mem_map]
  exact ⟨pa, List.mem_finRange pa, pf, List.mem_finRange pf, rfl⟩

theorem mem_waterTuples (wt : Fin 3 × Fin 3 × Fin 2 × Fin 2 × Fin 2) :
    wt ∈ waterTuples := by
  rcases wt with ⟨ra, tu, sr, ld, co⟩
  simp only [waterTuples, List.mem_flatMap, List.mem_map]
  exact ⟨ra, List.mem_finRange ra, tu, List.mem_finRange tu, sr, List.mem_finRange sr,
    ld, List.mem_finRange ld, co, List.mem_finRange co, rfl⟩

theorem mem_allAsn (a : Assignment) : a ∈ allAsn := by
  simp only [allAsn, List.mem_flatMap, List.mem_map]
  exact ⟨(a.pa, a.pf), mem_pumpPairs _,
    (a.ra, a.tu, a.sr, a.ld, a.co), mem_waterTuples _, rfl⟩

theorem bool_regroup : ∀ b1 b2 b3 b4 b5 b6 b7 : Bool,
    (b1 && b2 && b3 && b4 && b5 && b6 && b7) =
      ((b5 && b6) && (b1 && b2 && b3 && b4 && b7)) := by decide

theorem consistent_split (e : Evidence) (a : Assignment) :
    consistent e a = (consP e a.pa a.pf && consW e a.ra a.tu a.sr a.ld a.co) :=
  bool_regroup _ _ _ _ _ _ _

theorem sumAsn_factor (H : Fin 3 → Fin 2 → ℚ)
    (G : Fin 3 → Fin 3 → Fin 2 → Fin 2 → Fin 2 → ℚ) :
    sumAsn (fun a => H a.pa a.pf * G a.ra a.tu a.sr a.ld a.co) = sumP H * sumW G := by
  unfold sumAsn allAsn
  rw [lsum_map_flatMap]
  have inner : ∀ pp : Fin 3 × Fin 2,
      ((waterTuples.map fun wt => mkAsn wt pp).map fun a =>
        H a.pa a.pf * G a.ra a.tu a.sr a.ld a.co).sum
        = H pp.1 pp.2 * sumW G := by
    intro pp
    rw [List.map_map]
    have : ((fun a => H a.pa a.pf * G a.ra a.tu a.sr a.ld a.co) ∘ fun wt => mkAsn wt pp)
        = fun wt : Fin 3 × Fin 3 × Fin 2 × Fin 2 × Fin 2 =>
            H pp.1 pp.2 * G wt.1 wt.2.1 wt.2.2.1 wt.2.2.2.1 wt.2.2.2.2 := rfl
    rw [this, lsum_map_mul_left]
    rfl
  calc (pumpPairs.map fun pp =>
        ((waterTuples.map fun wt => mkAsn wt pp).map fun a =>
          H a.pa a.pf * G a.ra a.tu a.sr a.ld a.co).sum).sum
      = (pumpPairs.map fun pp => H pp.1 pp.2 * sumW G).sum := by
        exact congrArg List.sum (List.map_congr_left fun pp _ => inner pp)
    _ = sumP H * sumW G := by rw [lsum_map_mul_right]; rfl

theorem numer_co_factor (e : Evidence) (s : Nat) :
    numer Contamination s e =
      sumP (fun pa pf => if consP e pa pf then pumpW pa pf else 0) *
      sumW (fun ra tu sr ld co =>
        if consW e ra tu sr ld co && (co.val == s) then waterW ra tu sr ld co else 0) := by
  rw [← sumAsn_factor]
  unfold numer
  congr 1
  funext a
  rw [consistent_split]
  cases hp : consP e a.pa a.pf <;> cases hw : consW e a.ra a.tu a.sr a.ld a.co <;>
    cases hc : (a.co.val == s) <;>
    simp [att, jointP, hp, hw, hc]

theorem evTotal_factor (e : Evidence) :
    evTotal e =
      sumP (fun pa pf => if consP e pa pf then pumpW pa pf else 0) *
      sumW (fun ra tu sr ld co =>
        if consW e ra tu sr ld co then waterW ra tu sr ld co else 0) := by
  rw [← sumAsn_factor]
  unfold evTotal
  congr 1
  funext a
  rw [consistent_split]
  cases hp : consP e a.pa a.pf <;> cases hw : consW e a.ra a.tu a.sr a.ld a.co <;>
    simp [jointP, hp, hw]

theorem mtch_fin3 (o : Option Nat) (h : (o.all fun s => decide (s < 3)) = true) :
    mtch o (fin3 o).val = true := by
  cases o with
  | none => rfl
  | some s =>
    simp only [Option.all_some, decide_eq_true_eq] at h
    simp [mtch, fin3, Nat.mod_eq_of_lt h]

theorem mtch_fin2 (o : Option Nat) (h : (o.all fun s => decide (s < 2)) = true) :
    mtch o (fin2 o).val = true := by
  cases o with
  | none => rfl
  | some s =>
    simp only [Option.all_some, decide_eq_true_eq] at h
    simp [mtch, fin2, Nat.mod_eq_of_lt h]

theorem validEv_parts (e : Evidence) (h : validEv e = true) :
    ((e Rainfall).all fun s => decide (s < 3)) = true ∧
    ((e Turbidity).all fun s => decide (s < 3)) = true ∧
    ((e Surface_Runoff).all fun s => decide (s < 2)) = true ∧
    ((e Latrine_Dist).all fun s => decide (s < 2)) = true ∧
    ((e Pump_Age).all fun s => decide (s < 3)) = true ∧
    ((e Pump_Failure).all fun s => decide (s < 2)) = true ∧
    ((e Contamination).all fun s => decide (s < 2)) = true := by
  simp only [validEv, allVarsList, List.all_cons, List.all_nil, Bool.and_true,
    Bool.and_eq_true, card] at h
  tauto

theorem consistent_defaultAsn (e : Evidence) (h : validEv e = true) :
    consistent e (defaultAsn e) = true := by
  obtain ⟨h1, h2, h3, h4, h5, h6, h7⟩ := validEv_parts e h
  simp [consistent, defaultAsn, mtch_fin3 _ h1, mtch_fin3 _ h2, mtch_fin2 _ h3,
    mtch_fin2 _ h4, mtch_fin3 _ h5, mtch_fin2 _ h6, mtch_fin2 _ h7]

theorem evTotal_pos (e : Evidence) (h : validEv e = true) : 0 < evTotal e := by
  unfold evTotal sumAsn
  apply lsum_pos_of_mem _ _ (defaultAsn e)
  · intro a _
    by_cases hc : consistent e a = true
    · rw [if_pos hc]; exact le_of_lt (jointP_pos a)
    · rw [if_neg hc]
  · exact mem_allAsn _
  · rw [if_pos (consistent_defaultAsn e h)]; exact jointP_pos _

theorem numer_co_split (e : Evidence) :
    numer Contamination 0 e + numer Contamination 1 e = evTotal e := by
  unfold numer evTotal sumAsn
  rw [← lsum_map_add]
  apply congrArg List.sum
  apply List.map_congr_left
  intro a _
  have hlt := a.co.isLt
  have hco : a.co.val = 0 ∨ a.co.val = 1 := by omega
  cases hc : consistent e a
  · simp [hc]
  · rcases hco with h0 | h0 <;> simp [att, hc, h0]

theorem mem_allVarsList (v : Var) : v ∈ allVarsList := by
  cases v <;> simp [allVarsList]

/-- C1: for every evidence mapping whose keys name variables other than
Contamination and whose values are in-range state indices,
`predict_contamination_risk` returns a safe probability and a
contamination probability that sum to 1 (the query result is
normalized; exact rational arithmetic puts the sum within any
tolerance, in particular 1e-9). -/
theorem predict_contamination_risk_normalized (e : Evidence)
    (h : validEv e = true) (_hco : e Contamination = none) :
    (predict_contamination_risk e).safe_probability +
      (predict_contamination_risk e).contamination_probability = 1 := by
  show posterior Contamination e 0 + posterior Contamination e 1 = 1
  unfold posterior
  rw [div_add_div_same, numer_co_split]
  exact div_self (ne_of_gt (evTotal_pos e h))

/-- Witness for C1 at the concrete evidence `{Rainfall: 2, Turbidity: 1}`. -/
theorem predict_contamination_risk_normalized_witness :
    validEv rainyEv = true ∧ rainyEv Contamination = none ∧
    (predict_contamination_risk rainyEv).safe_probability +
      (predict_contamination_risk rainyEv).contamination_probability = 1 :=
  ⟨rfl, rfl, predict_contamination_risk_normalized rainyEv rfl rfl⟩

/-- C5: querying the marginal of a parentless variable with empty
evidence returns exactly its prior CPD values: Rainfall `[0.5, 0.3, 0.2]`,
Latrine_Dist `[0.7, 0.3]`, Pump_Age `[0.3, 0.5, 0.2]`. -/
theorem parentless_marginals_are_priors :
    (posterior Rainfall emptyEv 0 = 1/2 ∧ posterior Rainfall emptyEv 1 = 3/10 ∧
     posterior Rainfall emptyEv 2 = 1/5) ∧
    (posterior Latrine_Dist emptyEv 0 = 7/10 ∧ posterior Latrine_Dist emptyEv 1 = 3/10) ∧
    (posterior Pump_Age emptyEv 0 = 3/10 ∧ posterior Pump_Age emptyEv 1 = 1/2 ∧
     posterior Pump_Age emptyEv 2 = 1/5) := by
  decide!

/-- C6: every CPD column of the network sums to 1 within 1e-6 — for each
of the seven variables and every fixed assignment of its parents — and
the model validation (`check_model`) succeeds. -/
theorem cpd_columns_normalized :
    |colSumPrior 3 cpd_rainfall - 1| ≤ 1/1000000 ∧
    |colSumPrior 2 cpd_latrine - 1| ≤ 1/1000000 ∧
    |colSumPrior 3 cpd_pump_age - 1| ≤ 1/1000000 ∧
    (∀ ra : Fin 3, |colSumPrior 3 (fun t => cpd_turbidity t ra) - 1| ≤ 1/1000000) ∧
    (∀ ra : Fin 3, |colSumPrior 2 (fun s => cpd_runoff s ra) - 1| ≤ 1/1000000) ∧
    (∀ pa : Fin 3, |colSumPrior 2 (fun f => cpd_pump_failure f pa) - 1| ≤ 1/1000000) ∧
    (∀ tu : Fin 3, ∀ sr ld : Fin 2,
      |colSumPrior 2 (fun c => cpd_contamination c tu sr ld) - 1| ≤ 1/1000000) ∧
    check_model = true := by
  have key : ∀ q : ℚ, q = 1 → |q - 1| ≤ 1/1000000 := by
    intro q hq; rw [hq]; norm_num
  refine ⟨key _ (by decide!), key _ (by decide!), key _ (by decide!), ?_, ?_, ?_, ?_,
    by decide!⟩
  · intro ra; fin_cases ra <;> exact key _ (by decide!)
  · intro ra; fin_cases ra <;> exact key _ (by decide!)
  · intro pa; fin_cases pa <;> exact key _ (by decide!)
  · intro tu sr ld; fin_cases tu <;> fin_cases sr <;> fin_cases ld <;> exact key _ (by decide!)

/-- C7: the six declared edges form an acyclic graph, so validation
succeeds and the network becomes queryable, while an edge set containing
a cycle is rejected by the same acyclicity check. -/
theorem network_edges_acyclic :
    isAcyclicB edges = true ∧ check_model = true ∧
    isAcyclicB [(Rainfall, Turbidity), (Turbidity, Rainfall)] = false := by
  refine ⟨by decide!, by decide!, by decide!⟩

/-- C9: `predict_pump_status` returns exactly the Pump_Failure CPD column
for the given age — working `[0.98, 0.90, 0.70]`, failure
`[0.02, 0.10, 0.30]` — and maintenance is needed iff the failure
probability exceeds 0.15, which holds exactly for age 2. -/
theorem pump_status_matches_cpd (pump_age : Nat) (h : pump_age < 3) :
    (predict_pump_status pump_age).working_probability
        = [98/100, 90/100, 70/100].getD pump_age 0 ∧
    (predict_pump_status pump_age).failure_probability
        = [2/100, 10/100, 30/100].getD pump_age 0 ∧
    ((predict_pump_status pump_age).maintenance_needed = true ↔
      3/20 < (predict_pump_status pump_age).failure_probability) ∧
    ((predict_pump_status pump_age).maintenance_needed = true ↔ pump_age = 2) := by
  interval_cases pump_age <;> decide!

/-- Witness for C9 at the concrete age 2 (old pump). -/
theorem pump_status_matches_cpd_witness :
    2 < 3 ∧
    ((predict_pump_status 2).working_probability = [98/100, 90/100, 70/100].getD 2 0 ∧
     (predict_pump_status 2).failure_probability = [2/100, 10/100, 30/100].getD 2 0 ∧
     ((predict_pump_status 2).maintenance_needed = true ↔
       3/20 < (predict_pump_status 2).failure_probability) ∧
     ((predict_pump_status 2).maintenance_needed = true ↔ 2 = 2)) :=
  ⟨by norm_num, pump_status_matches_cpd 2 (by norm_num)⟩

/-- C10: the risk level is a total classification of the contamination
probability: LOW iff p < 0.2, MODERATE iff 0.2 ≤ p < 0.5, HIGH iff
0.5 ≤ p < 0.8, CRITICAL iff p ≥ 0.8; and `predict_contamination_risk`
derives its `risk_level` field from its contamination probability. -/
theorem risk_level_classification (p : ℚ) (e : Evidence) :
    (predict_contamination_risk e).risk_level
        = _categorize_risk ((predict_contamination_risk e).contamination_probability) ∧
    (_categorize_risk p = "LOW" ↔ p < 2/10) ∧
    (_categorize_risk p = "MODERATE" ↔ 2/10 ≤ p ∧ p < 5/10) ∧
    (_categorize_risk p = "HIGH" ↔ 5/10 ≤ p ∧ p < 8/10) ∧
    (_categorize_risk p = "CRITICAL" ↔ 8/10 ≤ p) := by
  refine ⟨rfl, ?_, ?_, ?_, ?_⟩ <;> unfold _categorize_risk <;> split_ifs with h1 h2 h3 <;>
    simp_all <;> first
      | linarith
      | (intro hx; linarith)

/-- C4: evidence containing a state index outside `[0, cardinality)` makes
`predict_contamination_risk` fail with a state-range error naming an
offending variable and its out-of-range state; no partial result is
produced (the pure embedding leaves the network definitions untouched). -/
theorem out_of_range_evidence_rejected (e : Evidence) (v : Var) (s : Nat)
    (hv : e v = some s) (hs : card v ≤ s) :
    ∃ w u, predict_contamination_risk_checked e
        = Except.error (QueryError.stateRange w u) ∧ e w = some u ∧ card w ≤ u := by
  have hpv : (!((e v).all fun s => decide (s < card v))) = true := by
    rw [hv]
    simp [Nat.not_lt.mpr hs]
  cases hfind : allVarsList.find? (fun w => !((e w).all fun s => decide (s < card w))) with
  | none =>
    have := List.find?_eq_none.mp hfind v (mem_allVarsList v)
    rw [hpv] at this
    cases this rfl
  | some w =>
    have hw := List.find?_some hfind
    cases hew : e w with
    | none => rw [hew] at hw; cases hw
    | some u =>
      rw [hew] at hw
      simp only [Option.all_some, Bool.not_eq_eq_eq_not, Bool.not_true,
        decide_eq_false_iff_not, Nat.not_lt] at hw
      refine ⟨w, u, ?_, hew, hw⟩
      unfold predict_contamination_risk_checked queryE
      rw [hfind]
      simp [hew, Except.map]

/-- Witness for C4 at the concrete invalid evidence `{Latrine_Dist: 5}`. -/
theorem out_of_range_evidence_rejected_witness :
    badEv Latrine_Dist = some 5 ∧ card Latrine_Dist ≤ 5 ∧
    ∃ w u, predict_contamination_risk_checked badEv
        = Except.error (QueryError.stateRange w u) ∧ badEv w = some u ∧ card w ≤ u :=
  ⟨rfl, by norm_num [card], out_of_range_evidence_rejected badEv Latrine_Dist 5 rfl
    (by norm_num [card])⟩

theorem argmax_spec2 (P : Nat → ℚ) :
    argmaxIdx [P 0, P 1] < 2 ∧
    (∀ j, j < 2 → P j ≤ P (argmaxIdx [P 0, P 1])) ∧
    (∀ j, j < argmaxIdx [P 0, P 1] → P j < P (argmaxIdx [P 0, P 1])) := by
  by_cases h : P 0 < P 1
  · have e1 : argmaxIdx [P 0, P 1] = 1 := by simp [argmaxIdx, argmaxGo, h]
    rw [e1]
    refine ⟨by norm_num, ?_, ?_⟩
    · intro j hj; interval_cases j
      · exact le_of_lt h
      · exact le_refl _
    · intro j hj; interval_cases j; exact h
  · push_neg at h
    have e1 : argmaxIdx [P 0, P 1] = 0 := by
      simp [argmaxIdx, argmaxGo, not_lt.mpr h]
    rw [e1]
    refine ⟨by norm_num, ?_, fun j hj => absurd hj (Nat.not_lt_zero j)⟩
    intro j hj; interval_cases j
    · exact le_refl _
    · exact h

theorem argmax_spec3 (P : Nat → ℚ) :
    argmaxIdx [P 0, P 1, P 2] < 3 ∧
    (∀ j, j < 3 → P j ≤ P (argmaxIdx [P 0, P 1, P 2])) ∧
    (∀ j, j < argmaxIdx [P 0, P 1, P 2] → P j < P (argmaxIdx [P 0, P 1, P 2])) := by
  by_cases h1 : P 0 < P 1
  · by_cases h2 : P 1 < P 2
    · have e1 : argmaxIdx [P 0, P 1, P 2] = 2 := by simp [argmaxIdx, argmaxGo, h1, h2]
      rw [e1]
      refine ⟨by norm_num, ?_, ?_⟩ <;> intro j hj <;> interval_cases j <;> linarith
    · push_neg at h2
      have e1 : argmaxIdx [P 0, P 1, P 2] = 1 := by
        simp [argmaxIdx, argmaxGo, h1, not_lt.mpr h2]
      rw [e1]
      refine ⟨by norm_num, ?_, ?_⟩ <;> intro j hj <;> interval_cases j <;> linarith
  · push_neg at h1
    by_cases h3 : P 0 < P 2
    · have e1 : argmaxIdx [P 0, P 1, P 2] = 2 := by
        simp [argmaxIdx, argmaxGo, not_lt.mpr h1, h3]
      rw [e1]
      refine ⟨by norm_num, ?_, ?_⟩ <;> intro j hj <;> interval_cases j <;> linarith
    · push_neg at h3
      have e1 : argmaxIdx [P 0, P 1, P 2] = 0 := by
        simp [argmaxIdx, argmaxGo, not_lt.mpr h1, not_lt.mpr h3]
      rw [e1]
      refine ⟨by norm_num, ?_, fun j hj => absurd hj (Nat.not_lt_zero j)⟩
      intro j hj; interval_cases j <;> linarith

/-- C3: for every valid evidence mapping, `get_most_likely_scenario`
returns a state for exactly the variables not in the evidence; each
returned state is an index of maximum posterior probability and every
smaller index has strictly smaller posterior (ties break to the lowest
index, the behavior of `np.argmax`); and the function is deterministic. -/
theorem scenario_estimator_argmax (e : Evidence) (v : Var) (_h : validEv e = true) :
    ((( get_most_likely_scenario e) v).isSome ↔ e v = none) ∧
    (∀ s, ( get_most_likely_scenario e) v = some s →
      s < card v ∧
      (∀ j, j < card v → posterior v e j ≤ posterior v e s) ∧
      (∀ j, j < s → posterior v e j < posterior v e s)) ∧
    get_most_likely_scenario e = get_most_likely_scenario e := by
  refine ⟨?_, ?_, rfl⟩
  · cases hv : e v <;> simp [ get_most_likely_scenario, hv]
  · intro s hs
    cases hv : e v with
    | some s0 => simp [ get_most_likely_scenario, hv] at hs
    | none =>
      simp only [ get_most_likely_scenario, hv, Option.some.injEq] at hs
      subst hs
      cases v
      case Rainfall => exact argmax_spec3 (posterior Rainfall e)
      case Turbidity => exact argmax_spec3 (posterior Turbidity e)
      case Surface_Runoff => exact argmax_spec2 (posterior Surface_Runoff e)
      case Latrine_Dist => exact argmax_spec2 (posterior Latrine_Dist e)
      case Pump_Age => exact argmax_spec3 (posterior Pump_Age e)
      case Pump_Failure => exact argmax_spec2 (posterior Pump_Failure e)
      case Contamination => exact argmax_spec2 (posterior Contamination e)

/-- Witness for C3 at the empty evidence and the Rainfall variable. -/
theorem scenario_estimator_argmax_witness :
    validEv emptyEv = true ∧
    (((( get_most_likely_scenario emptyEv) Rainfall).isSome ↔ emptyEv Rainfall = none) ∧
     (∀ s, ( get_most_likely_scenario emptyEv) Rainfall = some s →
       s < card Rainfall ∧
       (∀ j, j < card Rainfall →
         posterior Rainfall emptyEv j ≤ posterior Rainfall emptyEv s) ∧
       (∀ j, j < s → posterior Rainfall emptyEv j < posterior Rainfall emptyEv s)) ∧
     get_most_likely_scenario emptyEv = get_most_likely_scenario emptyEv) :=
  ⟨rfl, scenario_estimator_argmax emptyEv Rainfall rfl⟩

theorem two_le_card (v : Var) : 2 ≤ card v := by cases v <;> simp [card]

/-- C2: for every valid evidence mapping and target not in the evidence,
`sensitivity_analysis` scores exactly the variables present in the
evidence, and each score is the maximum over the alternative states of
the absolute change in the target's state-1 probability (so it is 0
when no alternative state produces a change). -/
theorem sensitivity_analysis_spec (t : Var) (e : Evidence) (v : Var)
    (_h : validEv e = true) (_ht : e t = none) :
    ((sensitivity_analysis t e v).isSome ↔ (e v).isSome) ∧
    (∀ s₀, e v = some s₀ →
      ∃ sc, sensitivity_analysis t e v = some sc ∧
        (∀ s, s < card v → s ≠ s₀ →
          |posterior t (updateEv e v s) 1 - posterior t e 1| ≤ sc) ∧
        (∃ s, s < card v ∧ s ≠ s₀ ∧
          sc = |posterior t (updateEv e v s) 1 - posterior t e 1|) ∧
        ((∀ s, s < card v → s ≠ s₀ →
            posterior t (updateEv e v s) 1 = posterior t e 1) → sc = 0)) := by
  constructor
  · cases hv : e v <;> simp [sensitivity_analysis, hv]
  · intro s₀ hs₀
    simp only [sensitivity_analysis, hs₀]
    refine ⟨_, rfl, ?_, ?_, ?_⟩
    · intro s hs hne
      apply scoreOf_le
      exact List.mem_map.mpr ⟨s, List.mem_filter.mpr
        ⟨List.mem_range.mpr hs, by simp [hne]⟩, rfl⟩
    · have halt : (if s₀ = 0 then 1 else 0) ∈
          (List.range (card v)).filter fun s => decide (s ≠ s₀) := by
        apply List.mem_filter.mpr
        constructor
        · apply List.mem_range.mpr
          have := two_le_card v
          split_ifs <;> omega
        · split_ifs with h0 <;> simp [h0]
          omega
      have hne : (((List.range (card v)).filter fun s => decide (s ≠ s₀)).map fun s =>
          |posterior t (updateEv e v s) 1 - posterior t e 1|) ≠ [] :=
        List.ne_nil_of_mem (List.mem_map.mpr ⟨_, halt, rfl⟩)
      obtain ⟨s, hsf, heq⟩ := List.mem_map.mp (scoreOf_mem _ hne)
      obtain ⟨hsr, hdec⟩ := List.mem_filter.mp hsf
      exact ⟨s, List.mem_range.mp hsr, by simpa using hdec, heq.symm⟩
    · intro hall
      apply scoreOf_eq_zero
      intro x hx
      obtain ⟨s, hsf, rfl⟩ := List.mem_map.mp hx
      obtain ⟨hsr, hdec⟩ := List.mem_filter.mp hsf
      rw [hall s (List.mem_range.mp hsr) (by simpa using hdec)]
      simp

/-- Witness for C2 at target Contamination, evidence `{Rainfall: 0}`,
and variable Rainfall. -/
theorem sensitivity_analysis_spec_witness :
    validEv rainOnlyEv = true ∧ rainOnlyEv Contamination = none ∧
    (((sensitivity_analysis Contamination rainOnlyEv Rainfall).isSome ↔
        (rainOnlyEv Rainfall).isSome) ∧
     (∀ s₀, rainOnlyEv Rainfall = some s₀ →
       ∃ sc, sensitivity_analysis Contamination rainOnlyEv Rainfall = some sc ∧
         (∀ s, s < card Rainfall → s ≠ s₀ →
           |posterior Contamination (updateEv rainOnlyEv Rainfall s) 1 -
             posterior Contamination rainOnlyEv 1| ≤ sc) ∧
         (∃ s, s < card Rainfall ∧ s ≠ s₀ ∧
           sc = |posterior Contamination (updateEv rainOnlyEv Rainfall s) 1 -
             posterior Contamination rainOnlyEv 1|) ∧
         ((∀ s, s < card Rainfall → s ≠ s₀ →
             posterior Contamination (updateEv rainOnlyEv Rainfall s) 1 =
               posterior Contamination rainOnlyEv 1) → sc = 0))) :=
  ⟨rfl, rfl, sensitivity_analysis_spec Contamination rainOnlyEv Rainfall rfl rfl⟩

theorem consW_update_pump_age (e : Evidence) (s : Nat) (ra tu : Fin 3) (sr ld co : Fin 2) :
    consW (updateEv e Pump_Age s) ra tu sr ld co = consW e ra tu sr ld co := by
  simp [consW, updateEv]

theorem pumpPart_pos (e : Evidence)
    (h5 : ((e Pump_Age).all fun s => decide (s < 3)) = true)
    (h6 : ((e Pump_Failure).all fun s => decide (s < 2)) = true) :
    0 < sumP (fun pa pf => if consP e pa pf then pumpW pa pf else 0) := by
  unfold sumP
  apply lsum_pos_of_mem _ _ (fin3 (e Pump_Age), fin2 (e Pump_Failure))
  · intro pp _
    dsimp only
    by_cases hc : consP e pp.1 pp.2 = true
    · rw [if_pos hc]; exact le_of_lt (pumpW_pos _ _)
    · rw [if_neg hc]
  · exact mem_pumpPairs _
  · have hcons : consP e (fin3 (e Pump_Age)) (fin2 (e Pump_Failure)) = true := by
      simp [consP, mtch_fin3 _ h5, mtch_fin2 _ h6]
    show (0 : ℚ) < if consP e (fin3 (e Pump_Age)) (fin2 (e Pump_Failure)) then
      pumpW (fin3 (e Pump_Age)) (fin2 (e Pump_Failure)) else 0
    rw [if_pos hcons]
    exact pumpW_pos _ _

theorem posterior_co_pump_age_irrelevant (e : Evidence) (h : validEv e = true)
    (s : Nat) (hs : s < 3) :
    posterior Contamination (updateEv e Pump_Age s) 1 = posterior Contamination e 1 := by
  obtain ⟨h1, h2, h3, h4, h5, h6, h7⟩ := validEv_parts e h
  have hNW : sumW (fun ra tu sr ld co =>
        if consW (updateEv e Pump_Age s) ra tu sr ld co && (co.val == 1) then
          waterW ra tu sr ld co else 0)
      = sumW (fun ra tu sr ld co =>
        if consW e ra tu sr ld co && (co.val == 1) then waterW ra tu sr ld co else 0) := by
    unfold sumW
    exact congrArg List.sum (List.map_congr_left fun wt _ => by
      dsimp only
      rw [consW_update_pump_age])
  have hTW : sumW (fun ra tu sr ld co =>
        if consW (updateEv e Pump_Age s) ra tu sr ld co then waterW ra tu sr ld co else 0)
      = sumW (fun ra tu sr ld co =>
        if consW e ra tu sr ld co then waterW ra tu sr ld co else 0) := by
    unfold sumW
    exact congrArg List.sum (List.map_congr_left fun wt _ => by
      dsimp only
      rw [consW_update_pump_age])
  have hP : 0 < sumP (fun pa pf => if consP e pa pf then pumpW pa pf else 0) :=
    pumpPart_pos e h5 h6
  have h5' : (((updateEv e Pump_Age s) Pump_Age).all fun u => decide (u < 3)) = true := by
    simp [updateEv, hs]
  have h6' : (((updateEv e Pump_Age s) Pump_Failure).all fun u => decide (u < 2)) = true := by
    simpa [updateEv] using h6
  have hP' : 0 < sumP (fun pa pf =>
      if consP (updateEv e Pump_Age s) pa pf then pumpW pa pf else 0) :=
    pumpPart_pos (updateEv e Pump_Age s) h5' h6'
  unfold posterior
  rw [numer_co_factor, evTotal_factor, numer_co_factor, evTotal_factor, hNW, hTW,
    mul_div_mul_left _ _ (ne_of_gt hP'), mul_div_mul_left _ _ (ne_of_gt hP)]

/-- C8: every score returned by `sensitivity_analysis` is nonnegative,
and for target Contamination the score of Pump_Age — a variable with no
directed path to the target — is 0 under any valid evidence containing
Pump_Age. -/
theorem sensitivity_scores_nonneg_pump_age_zero :
    (∀ t e v sc, sensitivity_analysis t e v = some sc → 0 ≤ sc) ∧
    (∀ e : Evidence, validEv e = true → (e Pump_Age).isSome →
      sensitivity_analysis Contamination e Pump_Age = some 0) := by
  constructor
  · intro t e v sc hsc
    cases hv : e v with
    | none => simp [sensitivity_analysis, hv] at hsc
    | some s₀ =>
      simp only [sensitivity_analysis, hv, Option.some.injEq] at hsc
      subst hsc
      apply scoreOf_nonneg
      intro x hx
      obtain ⟨u, _, rfl⟩ := List.mem_map.mp hx
      exact abs_nonneg _
  · intro e he hpa
    obtain ⟨s₀, hs₀⟩ := Option.isSome_iff_exists.mp hpa
    simp only [sensitivity_analysis, hs₀]
    have hz : scoreOf (((List.range (card Pump_Age)).filter fun s =>
        decide (s ≠ s₀)).map fun s =>
          |posterior Contamination (updateEv e Pump_Age s) 1 -
            posterior Contamination e 1|) = 0 := by
      apply scoreOf_eq_zero
      intro x hx
      obtain ⟨s, hsf, rfl⟩ := List.mem_map.mp hx
      obtain ⟨hsr, _⟩ := List.mem_filter.mp hsf
      have hs3 : s < 3 := by simpa [card] using List.mem_range.mp hsr
      rw [posterior_co_pump_age_irrelevant e he s hs3]
      simp
    rw [hz]

/-- Witness for C8 at the concrete evidence `{Pump_Age: 0}`. -/
theorem sensitivity_scores_nonneg_pump_age_zero_witness :
    validEv pumpAgeEv = true ∧ (pumpAgeEv Pump_Age).isSome = true ∧
    sensitivity_analysis Contamination pumpAgeEv Pump_Age = some 0 :=
  ⟨rfl, rfl, sensitivity_scores_nonneg_pump_age_zero.2 pumpAgeEv rfl rfl⟩
